import Mathlib

/-!
Shallow embedding of `src/desktop/src-tauri/src/lib.rs`, the only source
file of the repository: a Tauri desktop shell exposing one `greet` command,
a system-tray icon with a three-item menu (show/hide/quit), and a list of
capability plugins.  Host-framework effects (window show/hide/focus,
process exit) are modelled as a trace of primitive host calls emitted by
the event handlers; the window registry is modelled as the list of labels
of currently existing webview windows.
-/

namespace TimeTracking

/-- One step of Rust `format!` substitution on the character list of the
template: the first occurrence of the placeholder `\x7b\x7d` is replaced by
the argument's characters, verbatim; all other characters are copied. -/
def substPlaceholder : List Char → String → List Char
  | [], _ => []
  | [c], _ => [c]
  | c1 :: c2 :: rest, arg =>
    if c1 = Char.ofNat 123 ∧ c2 = Char.ofNat 125 then
      arg.data ++ rest
    else
      c1 :: substPlaceholder (c2 :: rest) arg

/-- Rust `format!` with a single `\x7b\x7d` placeholder and one argument. -/
def rustFormat1 (template : String) (arg : String) : String :=
  String.mk (substPlaceholder template.data arg)

/-- The format template of `greet` in `lib.rs`
(`"Hello, \x7b\x7d! You've been greeted from Rust!"`). -/
def greetTemplate : String := "Hello, \x7b\x7d! You've been greeted from Rust!"

/-- `fn greet(name: &str) -> String` from `lib.rs`: formats the template
with the given name. -/
def greet (name : String) : String := rustFormat1 greetTemplate name

/-- Primitive host-framework calls an event handler can make, recorded as a
trace: `window.show()`, `window.set_focus()`, `window.hide()` (each on the
window with the given label) and `app.exit(code)`. -/
inductive HostCall where
  | window_show (label : String)
  | window_set_focus (label : String)
  | window_hide (label : String)
  | app_exit (code : Int)
  deriving DecidableEq

/-- The host's window registry: the labels of the webview windows that
currently exist. -/
abbrev WindowRegistry := List String

/-- `app.get_webview_window(label)`: looks the label up in the host's
window registry, returning the window (identified here by its label) when
it exists and `none` otherwise. -/
def get_webview_window (registry : WindowRegistry) (label : String) : Option String :=
  if label ∈ registry then some label else none

/-- The label of the application's main window, the only one the handlers
in `lib.rs` ever look up. -/
def main_window_label : String := "main"

/-- The `on_menu_event` closure of `lib.rs`: dispatches on the menu event
identifier and returns the trace of host calls it performs. -/
def on_menu_event (registry : WindowRegistry) (event_id : String) : List HostCall :=
  match event_id with
  | "show" =>
    match get_webview_window registry main_window_label with
    | some window => [HostCall.window_show window, HostCall.window_set_focus window]
    | none => []
  | "hide" =>
    match get_webview_window registry main_window_label with
    | some window => [HostCall.window_hide window]
    | none => []
  | "quit" => [HostCall.app_exit 0]
  | _ => []

/-- `tauri::tray::MouseButton`. -/
inductive MouseButton where
  | Left
  | Right
  | Middle
  deriving DecidableEq

/-- `tauri::tray::MouseButtonState`. -/
inductive MouseButtonState where
  | Up
  | Down
  deriving DecidableEq

/-- `tauri::tray::TrayIconEvent`.  The `id`, `position` and `rect` payload
fields carried by the real enum are omitted: the handler in `lib.rs` never
inspects them (its patterns end in `..`). -/
inductive TrayIconEvent where
  | Click (button : MouseButton) (button_state : MouseButtonState)
  | DoubleClick (button : MouseButton)
  | Enter
  | Move
  | Leave
  deriving DecidableEq

/-- The `on_tray_icon_event` closure of `lib.rs`: a left-button mouse-up
click shows and focuses the main window; every other event falls into the
wildcard arm. -/
def on_tray_icon_event (registry : WindowRegistry) (event : TrayIconEvent) : List HostCall :=
  match event with
  | TrayIconEvent.Click MouseButton.Left MouseButtonState.Up =>
    match get_webview_window registry main_window_label with
    | some window => [HostCall.window_show window, HostCall.window_set_focus window]
    | none => []
  | _ => []

/-- A tray menu item as built by `MenuItem::with_id(app, id, label,
enabled, None::<&str>)`. -/
structure MenuItem where
  id : String
  label : String
  enabled : Bool
  deriving DecidableEq

/-- `MenuItem::with_id(app, "show", "Anzeigen", true, None)`. -/
def show_item : MenuItem := ⟨"show", "Anzeigen", true⟩

/-- `MenuItem::with_id(app, "hide", "Verstecken", true, None)`. -/
def hide_item : MenuItem := ⟨"hide", "Verstecken", true⟩

/-- `MenuItem::with_id(app, "quit", "Beenden", true, None)`. -/
def quit_item : MenuItem := ⟨"quit", "Beenden", true⟩

/-- `Menu::with_items(app, &[&show_item, &hide_item, &quit_item])`: the
tray menu, in the order the items are passed to the builder.  It is a
constant: the setup closure runs once at startup and nothing in `lib.rs`
ever touches the menu again. -/
def tray_menu : List MenuItem := [show_item, hide_item, quit_item]

/-- The plugins registered by `run` on the Tauri builder, in registration
order, each unconditionally and without configuration arguments, before
`.run(...)` enters the host run loop. -/
def plugins : List String :=
  ["opener", "http", "notification", "dialog", "fs", "updater", "process"]

/-- A window icon image, abstracted to an identifier: the handlers never
look inside it. -/
structure Icon where
  raw : Nat
  deriving DecidableEq

/-- The tray icon configuration assembled by `TrayIconBuilder::new()` in
the setup closure: `.icon(icon)`, `.menu(&menu)`,
`.show_menu_on_left_click(false)`. -/
structure TrayIconConfig where
  icon : Icon
  menu : List MenuItem
  show_menu_on_left_click : Bool
  deriving DecidableEq

/-- Outcome of the setup closure: either the built tray configuration, or
a panic. -/
inductive SetupOutcome where
  | ok (tray : TrayIconConfig)
  | panicked
  deriving DecidableEq

/-- The setup closure of `run`: builds the menu items and the menu, then
evaluates `app.default_window_icon().cloned().unwrap()` — panicking when
the application has no default window icon — and builds the tray icon from
the unwrapped icon, the menu, and `show_menu_on_left_click(false)`. -/
def setup (default_window_icon : Option Icon) : SetupOutcome :=
  match default_window_icon with
  | none => SetupOutcome.panicked
  | some icon => SetupOutcome.ok ⟨icon, tray_menu, false⟩

/-- Claim C1: for every input string `name`, `greet name` returns exactly
the string `"Hello, " ++ name ++ "! You've been greeted from Rust!"`, the
name substituted verbatim; `greet` is a total pure function, so there is
no validation, no error path and no side effect. -/
theorem greet_formats_name_verbatim (name : String) :
    greet name = "Hello, " ++ name ++ "! You've been greeted from Rust!" := by
  obtain ⟨data⟩ := name
  rfl

/-- Claim C2: when the menu event with identifier `"show"` is dispatched
and the window registry contains a window named `"main"`, the handler
emits exactly a show of that window followed by a focus request on it, in
that order. -/
theorem menu_show_shows_then_focuses_main (registry : WindowRegistry)
    (h : main_window_label ∈ registry) :
    on_menu_event registry show_item.id =
      [HostCall.window_show main_window_label,
       HostCall.window_set_focus main_window_label] := by
  simp [on_menu_event, show_item, get_webview_window, h]

/-- Witness for claim C2 at the registry containing only the main window. -/
theorem menu_show_shows_then_focuses_main_witness :
    main_window_label ∈ [main_window_label] ∧
    on_menu_event [main_window_label] show_item.id =
      [HostCall.window_show main_window_label,
       HostCall.window_set_focus main_window_label] :=
  ⟨by decide, menu_show_shows_then_focuses_main [main_window_label] (by decide)⟩

/-- Claim C3: when the menu event with identifier `"hide"` is dispatched
and the window registry contains a window named `"main"`, the handler
emits exactly one hide of that window and no other window operation. -/
theorem menu_hide_hides_main_only (registry : WindowRegistry)
    (h : main_window_label ∈ registry) :
    on_menu_event registry hide_item.id = [HostCall.window_hide main_window_label] := by
  simp [on_menu_event, hide_item, get_webview_window, h]

/-- Witness for claim C3 at the registry containing only the main window. -/
theorem menu_hide_hides_main_only_witness :
    main_window_label ∈ [main_window_label] ∧
    on_menu_event [main_window_label] hide_item.id =
      [HostCall.window_hide main_window_label] :=
  ⟨by decide, menu_hide_hides_main_only [main_window_label] (by decide)⟩

/-- Claim C4: for the menu events `"show"` and `"hide"`, when the lookup
of window `"main"` in the host's window registry returns nothing, the
handler performs no host call at all — no window operation, no exit, no
surfaced error. -/
theorem menu_missing_main_window_is_ignored (registry : WindowRegistry)
    (h : get_webview_window registry main_window_label = none) :
    on_menu_event registry show_item.id = [] ∧
    on_menu_event registry hide_item.id = [] := by
  constructor <;> simp [on_menu_event, show_item, hide_item, h]

/-- Witness for claim C4 at the empty window registry. -/
theorem menu_missing_main_window_is_ignored_witness :
    get_webview_window [] main_window_label = none ∧
    (on_menu_event [] show_item.id = [] ∧ on_menu_event [] hide_item.id = []) :=
  ⟨by decide, menu_missing_main_window_is_ignored [] (by decide)⟩

/-- Claim C5: the menu event with identifier `"quit"` makes the handler
call `app.exit(0)` — process termination with exit code 0 — whatever the
window registry holds, so in particular whether or not window `"main"`
exists. -/
theorem menu_quit_exits_zero (registry : WindowRegistry) :
    on_menu_event registry quit_item.id = [HostCall.app_exit 0] := by
  simp [on_menu_event, quit_item]

/-- Claim C6: for every window registry, the tray-icon handler on a click
with left mouse button and button state up performs exactly the host calls
the menu handler performs on identifier `"show"`: the same lookup of
window `"main"` followed by the same show and set-focus calls. -/
theorem tray_left_up_click_equals_menu_show (registry : WindowRegistry) :
    on_tray_icon_event registry
        (TrayIconEvent.Click MouseButton.Left MouseButtonState.Up) =
      on_menu_event registry show_item.id := by
  cases h : get_webview_window registry main_window_label <;>
    simp [on_menu_event, on_tray_icon_event, show_item, h]

/-- Claim C7: a menu event whose identifier is none of `"show"`, `"hide"`,
`"quit"`, and a tray-icon event that is not a click with left button and
button state up, each make their handler perform no host call at all: no
window operation, no process exit. -/
theorem unhandled_events_have_no_effect (registry : WindowRegistry)
    (event_id : String) (event : TrayIconEvent)
    (h1 : event_id ≠ "show") (h2 : event_id ≠ "hide") (h3 : event_id ≠ "quit")
    (h4 : event ≠ TrayIconEvent.Click MouseButton.Left MouseButtonState.Up) :
    on_menu_event registry event_id = [] ∧ on_tray_icon_event registry event = [] := by
  constructor
  · unfold on_menu_event
    split <;> simp_all
  · unfold on_tray_icon_event
    split <;> simp_all

/-- Witness for claim C7 at identifier `"other"` and the tray `Enter`
event, on the empty registry. -/
theorem unhandled_events_have_no_effect_witness :
    ("other" : String) ≠ "show" ∧ ("other" : String) ≠ "hide" ∧
    ("other" : String) ≠ "quit" ∧
    TrayIconEvent.Enter ≠ TrayIconEvent.Click MouseButton.Left MouseButtonState.Up ∧
    (on_menu_event [] "other" = [] ∧ on_tray_icon_event [] TrayIconEvent.Enter = []) :=
  ⟨by decide, by decide, by decide, by decide,
    unhandled_events_have_no_effect [] "other" TrayIconEvent.Enter
      (by decide) (by decide) (by decide) (by decide)⟩

/-- Claim C8: the tray menu built during setup is exactly the three
enabled items, in the order show, hide, quit, with identifier/label pairs
("show", "Anzeigen"), ("hide", "Verstecken"), ("quit", "Beenden"); the
embedding makes it a constant, matching "created once at startup and never
modified afterwards". -/
theorem tray_menu_three_static_items :
    tray_menu =
      [⟨"show", "Anzeigen", true⟩, ⟨"hide", "Verstecken", true⟩,
       ⟨"quit", "Beenden", true⟩] ∧
    tray_menu.length = 3 ∧ ∀ item ∈ tray_menu, item.enabled = true := by
  decide

/-- Claim C9, counterexample: the bootstrap does not register exactly six
plugins — the registration list of `run` has a different length. -/
theorem plugins_count_is_not_six : ¬ (plugins.length = 6) := by decide

/-- Claim C9, amended: the bootstrap registers exactly seven capability
plugins (opener, http, notification, dialog, fs, updater, process),
unconditionally and with no configuration options exposed, before entering
the host run loop. -/
theorem plugins_count_is_seven :
    plugins.length = 7 ∧
    plugins = ["opener", "http", "notification", "dialog", "fs", "updater", "process"] := by
  decide

/-- Claim C10: the tray icon image is the unwrapped default window icon —
when no default window icon is configured, setup panics, and when one is
configured, setup succeeds and puts exactly that icon into the tray
configuration. -/
theorem setup_unwraps_default_window_icon :
    setup none = SetupOutcome.panicked ∧
    ∀ icon, setup (some icon) = SetupOutcome.ok ⟨icon, tray_menu, false⟩ :=
  ⟨rfl, fun _ => rfl⟩

end TimeTracking
